import Mathlib

/-!
Verification of the fat-tree failure-detection-and-route-repair engine.

This development shallowly embeds the core of the repository:
`fat_tree_autofix.py` (failure detector, six recovery plans, orchestrator),
`router_config.py` (route mutation primitives, connectivity prober) and the
fixed topology of `fat_tree_topology.py`.

Modelling conventions:
* A node's routing table is a list of `RouteEntry` records.  The semantics of
  the `ip route` commands the code shells out to is modelled after the
  standard iproute2/kernel behaviour: `ip route add` fails (leaving the table
  unchanged) when an entry with the same destination and metric already
  exists, and otherwise appends the entry; `ip route del DEST` removes the
  first entry for `DEST` regardless of metric (the trailing
  `2>/dev/null || true` in the source makes a missing route a no-op);
  `ip route del DEST metric M` removes the first entry matching both;
  `ip route flush cache` does not change the table.
* The mininet API used by the code (`net.get`, `configLinkStatus`,
  `link.intf1.isUp()`, `node.cmd`) is not part of the repository.  It is
  modelled from the spec: node lookup is a fail-safe optional lookup over the
  fixed node-name list ("referenced node/link does not exist" is surfaced as
  a `false` return, never an exception), `setLinkStatus(a, b, down)` marks
  both endpoint interfaces of the undirected link `a↔b` down, and command
  output for pings is an oracle function (the spec's Command Execution Sink).
-/

namespace FatTree

abbrev Name := String

/-- Next-hop of a route entry: `via <gateway>`, `dev <interface>`, or
`dev <interface> src <address>` as used by the AR4 device routes. -/
inductive NextHop where
  | via (gateway : Name)
  | dev (iface : Name)
  | devSrc (iface : Name) (source : Name)
  deriving DecidableEq, Repr

/-- One installed route: destination prefix (the string `default` for the
default route), next hop and metric (`ip route add` without `metric` installs
metric 0). -/
structure RouteEntry where
  dest : Name
  nh : NextHop
  metric : Nat
  deriving DecidableEq, Repr

/-- Kernel semantics of `ip route add DEST ... metric M`: refused (table kept
unchanged) when an entry with the same destination and metric exists,
otherwise appended. -/
def routeAdd (t : List RouteEntry) (d : Name) (nh : NextHop) (m : Nat) :
    List RouteEntry :=
  if t.any (fun e => e.dest == d && e.metric == m) then t else t ++ [⟨d, nh, m⟩]

/-- Kernel semantics of `ip route del DEST 2>/dev/null || true`: remove the
first entry for `DEST` (any metric); a missing route is a no-op. -/
def routeDel (t : List RouteEntry) (d : Name) : List RouteEntry :=
  match t with
  | [] => []
  | e :: rest => if e.dest == d then rest else e :: routeDel rest d

/-- Kernel semantics of `ip route del DEST metric M 2>/dev/null || true`:
remove the first entry matching destination and metric. -/
def routeDelM (t : List RouteEntry) (d : Name) (m : Nat) : List RouteEntry :=
  match t with
  | [] => []
  | e :: rest =>
    if e.dest == d && e.metric == m then rest else e :: routeDelM rest d m

/-- Number of entries of a table for one destination prefix. -/
def countDest (t : List RouteEntry) (d : Name) : Nat :=
  t.countP (fun e => e.dest == d)

/-- A live link of `controller.net.links`: the two endpoint node names and
the up/down state of the two endpoint interfaces (`link.intf1.isUp()`,
`link.intf2.isUp()`). -/
structure Link where
  node1 : Name
  node2 : Name
  up1 : Bool
  up2 : Bool
  deriving DecidableEq, Repr

/-- Endpoint-name pair of a link. -/
def linkPair (l : Link) : Name × Name := (l.node1, l.node2)

/-- The fixed link list of `fat_tree_topology.py`, in `addLink` order:
core-aggregation links, straight aggregation-edge links, diagonal
aggregation-edge links, host links. -/
def topoLinkPairs : List (Name × Name) :=
  [("cr1", "ar1"), ("cr1", "ar3"), ("cr2", "ar2"), ("cr2", "ar4"),
   ("ar1", "es1"), ("ar2", "es2"), ("ar3", "es3"), ("ar4", "es4"),
   ("ar1", "es2"), ("ar2", "es1"), ("ar3", "es4"), ("ar4", "es3"),
   ("h1", "es1"), ("h2", "es1"), ("h3", "es2"), ("h4", "es2"),
   ("h5", "es3"), ("h6", "es3"), ("h7", "es4"), ("h8", "es4")]

/-- Whether the fixed topology has a link between the two (unordered) node
names. -/
def linkBetween (a b : Name) : Bool :=
  topoLinkPairs.any (fun p => (p.1 == a && p.2 == b) || (p.1 == b && p.2 == a))

/-- All topology links incident to a node. -/
def elementLinks (x : Name) : List (Name × Name) :=
  topoLinkPairs.filter (fun p => p.1 == x || p.2 == x)

/-- Node names of the network (`net.nameToNode`): controller, core routers,
aggregation routers, edge switches and hosts, from `fat_tree_topology.py`. -/
def nodeNames : List Name :=
  ["c0", "cr1", "cr2", "ar1", "ar2", "ar3", "ar4",
   "es1", "es2", "es3", "es4", "h1", "h2", "h3", "h4", "h5", "h6", "h7", "h8"]

/-- Modelled from the spec: `net.get(name)` is a fail-safe lookup — a name
outside the topology yields no node (the code's `if not node: return False`
guards), never an exception. -/
def nodeExists (n : Name) : Bool := nodeNames.contains n

/-- The IP address `node.IP()` returns: the host addresses of
`fat_tree_topology.py`, and for routers the address of the first-created
interface. -/
def nodeIP (n : Name) : Option Name :=
  if n == "h1" then some "10.1.1.1"
  else if n == "h2" then some "10.1.1.2"
  else if n == "h3" then some "10.1.2.1"
  else if n == "h4" then some "10.1.2.2"
  else if n == "h5" then some "10.2.1.1"
  else if n == "h6" then some "10.2.1.2"
  else if n == "h7" then some "10.2.2.1"
  else if n == "h8" then some "10.2.2.2"
  else if n == "cr1" then some "172.16.1.1"
  else if n == "cr2" then some "172.16.6.1"
  else if n == "ar1" then some "172.16.1.2"
  else if n == "ar2" then some "172.16.6.2"
  else if n == "ar3" then some "172.16.3.2"
  else if n == "ar4" then some "172.16.8.2"
  else none

/-- String interpolation of `node.IP()` into the ping command (Python renders
a missing address as `None`). -/
def ipStr (n : Name) : Name := (nodeIP n).getD "None"

/-- Full network state: the live link list and every node's routing table. -/
structure Net where
  links : List Link
  tables : Name → List RouteEntry

/-- Replacement of one node's table. -/
def setTable (tbls : Name → List RouteEntry) (n : Name)
    (t : List RouteEntry) : Name → List RouteEntry :=
  fun m => if m == n then t else tbls m

/-- Output oracle for `node.cmd(command)` — the spec's Command Execution
Sink: the textual output of running a shell command on a node.  Only the
ping commands of the connectivity prober consult their output. -/
abbrev Oracle := Name → String → String

/-- Python's substring test `pat in s`. -/
def hasSubstr (s pat : String) : Bool := decide (pat.data <:+: s.data)

/-- Embedding of `RouterConfigManager.test_connectivity` from
`router_config.py`: fail-safe node lookups, then a single
`ping -c 1 -W 2 <dst IP>` on the source node, reporting whether the output
contains the success marker `bytes from`. -/
def test_connectivity (o : Oracle) (src_name dst_name : Name) : Bool :=
  if nodeExists src_name && nodeExists dst_name then
    hasSubstr (o src_name ("ping -c 1 -W 2 " ++ ipStr dst_name)) "bytes from"
  else false

/-- The `route_config` dictionary of `update_router_route`: type `dev` or
`via` with a metric (`route_config.get("metric", 1)` is made explicit). -/
inductive RouteConfig where
  | dev (iface : Name) (metric : Nat)
  | via (gateway : Name) (metric : Nat)
  deriving DecidableEq, Repr

/-- Next hop a `RouteConfig` installs. -/
def RouteConfig.nh : RouteConfig → NextHop
  | .dev i _ => .dev i
  | .via g _ => .via g

/-- Metric a `RouteConfig` installs. -/
def RouteConfig.metricOf : RouteConfig → Nat
  | .dev _ m => m
  | .via _ m => m

/-- Table effect of `update_router_route`'s command sequence: delete the
destination (any metric), delete metric-1 and metric-2 leftovers, add the
new route, flush the cache (a table no-op). -/
def setRouterTable (t : List RouteEntry) (d : Name) (cfg : RouteConfig) :
    List RouteEntry :=
  routeAdd (routeDelM (routeDelM (routeDel t d) d 1) d 2) d cfg.nh cfg.metricOf

/-- Embedding of `RouterConfigManager.update_router_route` from
`router_config.py`: `False` without any mutation when the node does not
exist, otherwise clear existing routes for the destination, install the new
one and return `True`. -/
def update_router_route (net : Net) (router_name destination : Name)
    (cfg : RouteConfig) : Bool × Net :=
  if nodeExists router_name then
    (true, { net with
      tables := setTable net.tables router_name
        (setRouterTable (net.tables router_name) destination cfg) })
  else (false, net)

/-- Table effect of `update_host_route`'s command sequence: delete the
destination, add `via <gateway> metric 1`, flush the cache. -/
def setHostTable (t : List RouteEntry) (d gw : Name) : List RouteEntry :=
  routeAdd (routeDel t d) d (.via gw) 1

/-- Embedding of `RouterConfigManager.update_host_route` from
`router_config.py`. -/
def update_host_route (net : Net) (host_name destination gateway : Name) :
    Bool × Net :=
  if nodeExists host_name then
    (true, { net with
      tables := setTable net.tables host_name
        (setHostTable (net.tables host_name) destination gateway) })
  else (false, net)

/-- One `setRoute` call of the spec: either `update_router_route` or
`update_host_route` with its arguments. -/
inductive Step where
  | router (router_name destination : Name) (cfg : RouteConfig)
  | host (host_name destination gateway : Name)
  deriving DecidableEq, Repr

/-- State after one `setRoute` call (the returned boolean is dropped; the
caller of a plan continues either way). -/
def applyStep (net : Net) : Step → Net
  | .router r d cfg => (update_router_route net r d cfg).2
  | .host h d gw => (update_host_route net h d gw).2

/-- State after a sequence of `setRoute` calls. -/
def applySteps (steps : List Step) (net : Net) : Net :=
  steps.foldl applyStep net

/-- Embedding of `detect_link_failure` from `fat_tree_autofix.py`: scan
`net.links` in order; at the first link whose endpoint-name set contains both
names, report whether either endpoint interface is down; report `false` when
no link matches (and, per the source's `except` clause, on any lookup
error — the model is total, so that branch is vacuous). -/
def detect_link_failure (links : List Link) (node1 node2 : Name) : Bool :=
  match links with
  | [] => false
  | l :: rest =>
    if (node1 == l.node1 || node1 == l.node2)
        && (node2 == l.node1 || node2 == l.node2) then
      !(l.up1 && l.up2)
    else detect_link_failure rest node1 node2

/-- One shell command of a recovery plan: either a `configLinkStatus(a, b,
down)` call or an `ip route` command on a node. -/
inductive Action where
  | linkDown (a b : Name)
  | route (node : Name) (d : Name) (nh : NextHop) (metric : Nat)
  | routeDelA (node : Name) (d : Name)
  deriving DecidableEq, Repr

/-- Modelled from the spec (Link State Control `setLinkStatus`): mark both
endpoint interfaces of the undirected link `a↔b` down. -/
def configLinkDown (links : List Link) (a b : Name) : List Link :=
  links.map (fun l =>
    if (l.node1 == a && l.node2 == b) || (l.node1 == b && l.node2 == a) then
      { l with up1 := false, up2 := false }
    else l)

/-- State after one plan command. -/
def runAction (net : Net) : Action → Net
  | .linkDown a b => { net with links := configLinkDown net.links a b }
  | .route n d nh m =>
    { net with tables := setTable net.tables n (routeAdd (net.tables n) d nh m) }
  | .routeDelA n d =>
    { net with tables := setTable net.tables n (routeDel (net.tables n) d) }

/-- State after a whole command sequence. -/
def runPlan (acts : List Action) (net : Net) : Net :=
  acts.foldl runAction net

/-- Embedding of `fix_ar1_complete_failure` from `fat_tree_autofix.py` as
its command sequence (prints and the `try`/`except` wrapper around the link
downs carry no state). -/
def fix_ar1_complete_failure : List Action :=
  [.linkDown "ar1" "cr1", .linkDown "ar1" "es1", .linkDown "ar1" "es2",
   .routeDelA "h1" "default",
   .route "h1" "default" (.via "10.1.1.253") 0,
   .route "h1" "10.1.2.0/24" (.via "10.1.1.253") 1,
   .route "h1" "10.2.0.0/16" (.via "10.1.1.253") 1,
   .routeDelA "h2" "default",
   .route "h2" "default" (.via "10.1.1.253") 0,
   .route "h2" "10.1.2.0/24" (.via "10.1.1.253") 1,
   .route "h2" "10.2.0.0/16" (.via "10.1.1.253") 1,
   .routeDelA "h3" "default",
   .route "h3" "default" (.via "10.1.2.254") 0,
   .route "h3" "10.1.1.0/24" (.via "10.1.2.254") 1,
   .route "h3" "10.2.0.0/16" (.via "10.1.2.254") 1,
   .routeDelA "h4" "default",
   .route "h4" "default" (.via "10.1.2.254") 0,
   .route "h4" "10.1.1.0/24" (.via "10.1.2.254") 1,
   .route "h4" "10.2.0.0/16" (.via "10.1.2.254") 1,
   .routeDelA "ar2" "10.1.1.0/24",
   .route "ar2" "10.1.1.0/24" (.dev "ar2-eth3") 1,
   .route "ar2" "10.2.1.0/24" (.via "172.16.6.1") 1,
   .route "ar2" "10.2.2.0/24" (.via "172.16.6.1") 1,
   .route "cr2" "10.1.1.0/24" (.via "172.16.6.2") 1,
   .routeDelA "ar4" "10.2.1.0/24",
   .route "ar4" "10.2.1.0/24" (.devSrc "ar4-eth3" "10.2.1.253") 1,
   .routeDelA "ar3" "10.1.1.0/24",
   .route "ar3" "10.1.1.0/24" (.via "10.2.1.253") 1,
   .routeDelA "ar3" "10.1.2.0/24",
   .route "ar3" "10.1.2.0/24" (.via "10.2.1.253") 1]

/-- Embedding of `fix_ar2_complete_failure` from `fat_tree_autofix.py`. -/
def fix_ar2_complete_failure : List Action :=
  [.linkDown "ar2" "cr2", .linkDown "ar2" "es2", .linkDown "ar2" "es1",
   .routeDelA "h3" "default",
   .route "h3" "default" (.via "10.1.2.253") 0,
   .route "h3" "10.1.1.0/24" (.via "10.1.2.253") 1,
   .route "h3" "10.2.0.0/16" (.via "10.1.2.253") 1,
   .routeDelA "h4" "default",
   .route "h4" "default" (.via "10.1.2.253") 0,
   .route "h4" "10.1.1.0/24" (.via "10.1.2.253") 1,
   .route "h4" "10.2.0.0/16" (.via "10.1.2.253") 1,
   .routeDelA "ar1" "10.1.2.0/24",
   .route "ar1" "10.1.2.0/24" (.dev "ar1-eth3") 1,
   .routeDelA "ar1" "10.2.0.0/16",
   .route "ar1" "10.2.0.0/16" (.via "172.16.1.1") 1,
   .routeDelA "cr1" "10.2.1.0/24",
   .routeDelA "cr1" "10.2.2.0/24",
   .route "cr1" "10.2.1.0/24" (.via "172.16.3.2") 1,
   .route "cr1" "10.2.2.0/24" (.via "172.16.3.2") 1,
   .routeDelA "ar3" "10.1.1.0/24",
   .routeDelA "ar3" "10.1.2.0/24",
   .route "ar3" "10.1.1.0/24" (.via "172.16.3.1") 1,
   .route "ar3" "10.1.2.0/24" (.via "172.16.3.1") 1,
   .routeDelA "ar4" "10.1.1.0/24",
   .routeDelA "ar4" "10.1.2.0/24",
   .route "ar4" "10.1.1.0/24" (.via "10.2.1.254") 1,
   .route "ar4" "10.1.2.0/24" (.via "10.2.1.254") 1]

/-- Embedding of `fix_ar3_complete_failure` from `fat_tree_autofix.py`. -/
def fix_ar3_complete_failure : List Action :=
  [.linkDown "ar3" "cr1", .linkDown "ar3" "es3", .linkDown "ar3" "es4",
   .routeDelA "h5" "default",
   .route "h5" "default" (.via "10.2.1.253") 0,
   .route "h5" "10.2.2.0/24" (.via "10.2.1.253") 1,
   .route "h5" "10.1.0.0/16" (.via "10.2.1.253") 1,
   .routeDelA "h6" "default",
   .route "h6" "default" (.via "10.2.1.253") 0,
   .route "h6" "10.2.2.0/24" (.via "10.2.1.253") 1,
   .route "h6" "10.1.0.0/16" (.via "10.2.1.253") 1,
   .routeDelA "h7" "default",
   .route "h7" "default" (.via "10.2.2.254") 0,
   .route "h7" "10.2.1.0/24" (.via "10.2.2.254") 1,
   .route "h7" "10.1.0.0/16" (.via "10.2.2.254") 1,
   .routeDelA "h8" "default",
   .route "h8" "default" (.via "10.2.2.254") 0,
   .route "h8" "10.2.1.0/24" (.via "10.2.2.254") 1,
   .route "h8" "10.1.0.0/16" (.via "10.2.2.254") 1,
   .routeDelA "ar4" "10.2.1.0/24",
   .route "ar4" "10.2.1.0/24" (.devSrc "ar4-eth3" "10.2.1.253") 1,
   .route "ar4" "10.1.1.0/24" (.via "172.16.8.1") 1,
   .route "ar4" "10.1.2.0/24" (.via "172.16.8.1") 1,
   .route "cr2" "10.2.1.0/24" (.via "172.16.8.2") 1,
   .routeDelA "ar1" "10.2.1.0/24",
   .route "ar1" "10.2.1.0/24" (.via "10.1.1.253") 1,
   .routeDelA "ar1" "10.2.2.0/24",
   .route "ar1" "10.2.2.0/24" (.via "10.1.1.253") 1,
   .routeDelA "ar2" "10.2.1.0/24",
   .route "ar2" "10.2.1.0/24" (.via "172.16.6.1") 1,
   .routeDelA "ar2" "10.2.2.0/24",
   .route "ar2" "10.2.2.0/24" (.via "172.16.6.1") 1]

/-- Embedding of `fix_ar4_complete_failure` from `fat_tree_autofix.py`. -/
def fix_ar4_complete_failure : List Action :=
  [.linkDown "ar4" "cr2", .linkDown "ar4" "es4", .linkDown "ar4" "es3",
   .routeDelA "h7" "default",
   .route "h7" "default" (.via "10.2.2.253") 0,
   .route "h7" "10.2.1.0/24" (.via "10.2.2.253") 1,
   .route "h7" "10.1.0.0/16" (.via "10.2.2.253") 1,
   .routeDelA "h8" "default",
   .route "h8" "default" (.via "10.2.2.253") 0,
   .route "h8" "10.2.1.0/24" (.via "10.2.2.253") 1,
   .route "h8" "10.1.0.0/16" (.via "10.2.2.253") 1,
   .routeDelA "h5" "default",
   .route "h5" "default" (.via "10.2.1.254") 0,
   .route "h5" "10.2.2.0/24" (.via "10.2.1.254") 1,
   .route "h5" "10.1.0.0/16" (.via "10.2.1.254") 1,
   .routeDelA "h6" "default",
   .route "h6" "default" (.via "10.2.1.254") 0,
   .route "h6" "10.2.2.0/24" (.via "10.2.1.254") 1,
   .route "h6" "10.1.0.0/16" (.via "10.2.1.254") 1,
   .routeDelA "ar3" "10.2.2.0/24",
   .route "ar3" "10.2.2.0/24" (.dev "ar3-eth3") 1,
   .route "ar3" "10.1.1.0/24" (.via "172.16.3.1") 1,
   .route "ar3" "10.1.2.0/24" (.via "172.16.3.1") 1,
   .route "cr1" "10.2.2.0/24" (.via "172.16.3.2") 1,
   .routeDelA "ar1" "10.2.2.0/24",
   .route "ar1" "10.2.2.0/24" (.via "172.16.1.1") 1,
   .routeDelA "ar1" "10.2.1.0/24",
   .route "ar1" "10.2.1.0/24" (.via "172.16.1.1") 1,
   .routeDelA "ar2" "10.2.2.0/24",
   .route "ar2" "10.2.2.0/24" (.via "10.1.2.253") 1,
   .routeDelA "ar2" "10.2.1.0/24",
   .route "ar2" "10.2.1.0/24" (.via "10.1.2.253") 1]

/-- Embedding of `fix_cr1_complete_failure` from `fat_tree_autofix.py`. -/
def fix_cr1_complete_failure : List Action :=
  [.linkDown "cr1" "ar1", .linkDown "cr1" "ar3",
   .routeDelA "ar1" "10.2.0.0/16",
   .route "ar1" "10.2.0.0/16" (.via "10.1.1.253") 1,
   .routeDelA "ar3" "10.1.0.0/16",
   .route "ar3" "10.1.0.0/16" (.via "10.2.1.253") 1,
   .route "ar2" "10.2.1.0/24" (.via "172.16.6.1") 1,
   .route "ar2" "10.2.2.0/24" (.via "172.16.6.1") 1,
   .route "ar4" "10.1.1.0/24" (.via "172.16.8.1") 1,
   .route "ar4" "10.1.2.0/24" (.via "172.16.8.1") 1,
   .route "cr2" "10.1.1.0/24" (.via "172.16.6.2") 1,
   .route "cr2" "10.1.2.0/24" (.via "172.16.6.2") 1,
   .route "cr2" "10.2.1.0/24" (.via "172.16.8.2") 1,
   .route "cr2" "10.2.2.0/24" (.via "172.16.8.2") 1]

/-- Embedding of `fix_cr2_complete_failure` from `fat_tree_autofix.py`. -/
def fix_cr2_complete_failure : List Action :=
  [.linkDown "cr2" "ar2", .linkDown "cr2" "ar4",
   .routeDelA "ar2" "10.2.0.0/16",
   .route "ar2" "10.2.0.0/16" (.via "10.1.2.253") 1,
   .routeDelA "ar4" "10.1.0.0/16",
   .route "ar4" "10.1.0.0/16" (.via "10.2.2.253") 1,
   .route "ar1" "10.2.1.0/24" (.via "172.16.1.1") 1,
   .route "ar1" "10.2.2.0/24" (.via "172.16.1.1") 1,
   .route "ar3" "10.1.1.0/24" (.via "172.16.3.1") 1,
   .route "ar3" "10.1.2.0/24" (.via "172.16.3.1") 1,
   .route "cr1" "10.1.1.0/24" (.via "172.16.1.2") 1,
   .route "cr1" "10.1.2.0/24" (.via "172.16.1.2") 1,
   .route "cr1" "10.2.1.0/24" (.via "172.16.3.2") 1,
   .route "cr1" "10.2.2.0/24" (.via "172.16.3.2") 1]

/-- The route commands of `RouterConfigManager.setup_basic_routing` from
`router_config.py` (host default routes, aggregation router routes, core
router routes; the OVS flow commands of the switches install no routes). -/
def setup_basic_routing_actions : List Action :=
  [.route "h1" "default" (.via "10.1.1.254") 0,
   .route "h2" "default" (.via "10.1.1.254") 0,
   .route "h3" "default" (.via "10.1.2.254") 0,
   .route "h4" "default" (.via "10.1.2.254") 0,
   .route "h5" "default" (.via "10.2.1.254") 0,
   .route "h6" "default" (.via "10.2.1.254") 0,
   .route "h7" "default" (.via "10.2.2.254") 0,
   .route "h8" "default" (.via "10.2.2.254") 0,
   .route "ar1" "10.1.2.0/24" (.dev "ar1-eth3") 1,
   .route "ar1" "10.2.0.0/16" (.via "172.16.1.1") 0,
   .route "ar2" "10.1.1.0/24" (.dev "ar2-eth3") 1,
   .route "ar2" "10.2.0.0/16" (.via "172.16.6.1") 0,
   .route "ar3" "10.2.2.0/24" (.dev "ar3-eth3") 1,
   .route "ar3" "10.1.0.0/16" (.via "172.16.3.1") 0,
   .route "ar4" "10.2.1.0/24" (.dev "ar4-eth3") 1,
   .route "ar4" "10.1.0.0/16" (.via "172.16.8.1") 0,
   .route "cr1" "10.1.1.0/24" (.via "172.16.1.2") 0,
   .route "cr1" "10.1.2.0/24" (.via "172.16.1.2") 0,
   .route "cr1" "10.2.1.0/24" (.via "172.16.3.2") 0,
   .route "cr1" "10.2.2.0/24" (.via "172.16.3.2") 0,
   .route "cr2" "10.1.1.0/24" (.via "172.16.6.2") 0,
   .route "cr2" "10.1.2.0/24" (.via "172.16.6.2") 0,
   .route "cr2" "10.2.1.0/24" (.via "172.16.8.2") 0,
   .route "cr2" "10.2.2.0/24" (.via "172.16.8.2") 0]

/-- The freshly built network: every topology link up, every table empty. -/
def freshNet : Net :=
  { links := topoLinkPairs.map (fun p => ⟨p.1, p.2, true, true⟩),
    tables := fun _ => [] }

/-- The healthy network right after `setup_basic_routing`. -/
def initialNet : Net := runPlan setup_basic_routing_actions freshNet

/-- The failure-causing element whose recovery plan a branch of
`auto_detect_and_fix_failures` invokes. -/
inductive Element where
  | AR1 | AR2 | AR3 | AR4 | CR1 | CR2
  deriving DecidableEq, Repr

/-- Command sequence of one element's recovery plan. -/
def planFor : Element → List Action
  | .AR1 => fix_ar1_complete_failure
  | .AR2 => fix_ar2_complete_failure
  | .AR3 => fix_ar3_complete_failure
  | .AR4 => fix_ar4_complete_failure
  | .CR1 => fix_cr1_complete_failure
  | .CR2 => fix_cr2_complete_failure

/-- Result of `auto_detect_and_fix_failures`: the returned boolean, the
network state afterwards, the `fixes_applied` strings of the source, and —
the plan-invocation spy the spec asks testability for — which recovery
plans were invoked. -/
structure AutofixResult where
  ok : Bool
  net : Net
  fixes_applied : List String
  plansInvoked : List Element

/-- The six verification host pairs (`test_pairs` in the source). -/
def testPairs : List (Name × Name) :=
  [("h1", "h3"), ("h1", "h5"), ("h3", "h5"),
   ("h5", "h7"), ("h7", "h1"), ("h5", "h3")]

/-- The verification sweep of `auto_detect_and_fix_failures`: `all_working`
starts `True` and is cleared by any failing probe. -/
def verifyConn (o : Oracle) : Bool :=
  testPairs.foldl (fun acc p => acc && test_connectivity o p.1 p.2) true

/-- The tail of every remediating branch: remember the applied fix, run the
six probes, return `all_working`. -/
def finishAutofix (net : Net) (o : Oracle) (fixes : List String)
    (plans : List Element) : AutofixResult :=
  ⟨verifyConn o, net, fixes, plans⟩

/-- Embedding of `auto_detect_and_fix_failures` from `fat_tree_autofix.py`:
the literal `if`/`elif` chain over the 12 candidate links, first match wins;
a firing branch runs its plan and the verification sweep; with no detected
failure the state is untouched and the call reports success. -/
def auto_detect_and_fix_failures (net : Net) (o : Oracle) : AutofixResult :=
  if detect_link_failure net.links "ar1" "es1" then
    finishAutofix (runPlan fix_ar1_complete_failure net) o
      ["AR1 (ar1↔es1 failed)"] [.AR1]
  else if detect_link_failure net.links "ar1" "es2" then
    finishAutofix (runPlan fix_ar1_complete_failure net) o
      ["AR1 (ar1↔es2 failed)"] [.AR1]
  else if detect_link_failure net.links "ar2" "es1" then
    finishAutofix (runPlan fix_ar2_complete_failure net) o
      ["AR2 (ar2↔es1 failed)"] [.AR2]
  else if detect_link_failure net.links "ar2" "es2" then
    finishAutofix (runPlan fix_ar2_complete_failure net) o
      ["AR2 (ar2↔es2 failed)"] [.AR2]
  else if detect_link_failure net.links "ar3" "es3" then
    finishAutofix (runPlan fix_ar3_complete_failure net) o
      ["AR3 (ar3↔es3 failed)"] [.AR3]
  else if detect_link_failure net.links "ar3" "es4" then
    finishAutofix (runPlan fix_ar3_complete_failure net) o
      ["AR3 (ar3↔es4 failed)"] [.AR3]
  else if detect_link_failure net.links "ar4" "es3" then
    finishAutofix (runPlan fix_ar4_complete_failure net) o
      ["AR4 (ar4↔es3 failed)"] [.AR4]
  else if detect_link_failure net.links "ar4" "es4" then
    finishAutofix (runPlan fix_ar4_complete_failure net) o
      ["AR4 (ar4↔es4 failed)"] [.AR4]
  else if detect_link_failure net.links "ar1" "cr1" then
    finishAutofix (runPlan fix_cr1_complete_failure net) o
      ["CR1 (ar1↔cr1 failed)"] [.CR1]
  else if detect_link_failure net.links "ar2" "cr2" then
    finishAutofix (runPlan fix_cr2_complete_failure net) o
      ["CR2 (ar2↔cr2 failed)"] [.CR2]
  else if detect_link_failure net.links "ar3" "cr1" then
    finishAutofix (runPlan fix_cr1_complete_failure net) o
      ["CR1 (ar3↔cr1 failed)"] [.CR1]
  else if detect_link_failure net.links "ar4" "cr2" then
    finishAutofix (runPlan fix_cr2_complete_failure net) o
      ["CR2 (ar4↔cr2 failed)"] [.CR2]
  else ⟨true, net, [], []⟩

/-- One row of the candidate scan: link pair, plan element, log label. -/
structure Candidate where
  pair : Name × Name
  elem : Element
  label : String
  deriving DecidableEq, Repr

/-- The 12 candidate links in the exact order the `if`/`elif` chain scans
them, with the plan and `fixes_applied` label of each branch. -/
def candidateList : List Candidate :=
  [⟨("ar1", "es1"), .AR1, "AR1 (ar1↔es1 failed)"⟩,
   ⟨("ar1", "es2"), .AR1, "AR1 (ar1↔es2 failed)"⟩,
   ⟨("ar2", "es1"), .AR2, "AR2 (ar2↔es1 failed)"⟩,
   ⟨("ar2", "es2"), .AR2, "AR2 (ar2↔es2 failed)"⟩,
   ⟨("ar3", "es3"), .AR3, "AR3 (ar3↔es3 failed)"⟩,
   ⟨("ar3", "es4"), .AR3, "AR3 (ar3↔es4 failed)"⟩,
   ⟨("ar4", "es3"), .AR4, "AR4 (ar4↔es3 failed)"⟩,
   ⟨("ar4", "es4"), .AR4, "AR4 (ar4↔es4 failed)"⟩,
   ⟨("ar1", "cr1"), .CR1, "CR1 (ar1↔cr1 failed)"⟩,
   ⟨("ar2", "cr2"), .CR2, "CR2 (ar2↔cr2 failed)"⟩,
   ⟨("ar3", "cr1"), .CR1, "CR1 (ar3↔cr1 failed)"⟩,
   ⟨("ar4", "cr2"), .CR2, "CR2 (ar4↔cr2 failed)"⟩]

/-- The candidate links the detector reports as down, in scan order. -/
def downCandidates (net : Net) : List Candidate :=
  candidateList.filter (fun c => detect_link_failure net.links c.pair.1 c.pair.2)

/-- First-match scan over a candidate list: the recursive reading of the
`if`/`elif` chain, used to reason about `auto_detect_and_fix_failures` by
induction. -/
def runChain (net : Net) (o : Oracle) : List Candidate → AutofixResult
  | [] => ⟨true, net, [], []⟩
  | c :: rest =>
    if detect_link_failure net.links c.pair.1 c.pair.2 then
      finishAutofix (runPlan (planFor c.elem) net) o [c.label] [c.elem]
    else runChain net o rest

/-- Whether a plan command is a `configLinkStatus(..., down)` call. -/
def isLinkDownAct : Action → Bool
  | .linkDown _ _ => true
  | _ => false

/-- The link pairs a command sequence marks down. -/
def linkDownPairs (acts : List Action) : List (Name × Name) :=
  acts.filterMap (fun a => match a with
    | .linkDown x y => some (x, y)
    | _ => none)

/-- Whether every link of `req` occurs (as an unordered pair) among
`downs`. -/
def coversLinks (downs req : List (Name × Name)) : Bool :=
  req.all (fun p => downs.any (fun q =>
    (q.1 == p.1 && q.2 == p.2) || (q.1 == p.2 && q.2 == p.1)))

/-- Invariant of one routing table: at most one entry per destination
prefix. -/
def atMostOne (t : List RouteEntry) : Prop := ∀ d, countDest t d ≤ 1

/-- Invariant over the whole network: every node's table has at most one
entry per destination prefix. -/
def atMostOneNet (net : Net) : Prop := ∀ n d, countDest (net.tables n) d ≤ 1

/-- A network with the two candidate links `ar1↔es2` and `ar2↔es1` down
simultaneously, used as a concrete multi-failure scenario. -/
def twoDownNet : Net :=
  runPlan [.linkDown "ar1" "es2", .linkDown "ar2" "es1"] initialNet

/-- Link list of the healthy topology with the single link `cr1↔ar1`
marked down. -/
def ar1Cr1DownLinks : List Link :=
  (runAction initialNet (.linkDown "cr1" "ar1")).links

/-- An oracle whose ping outputs all carry the success marker. -/
def pingOkOracle : Oracle := fun _ _ => "64 bytes from 10.1.2.1: icmp_seq=1"

/-- An oracle whose ping outputs never carry the success marker. -/
def pingDeadOracle : Oracle := fun _ _ => "Request timeout"

/-! Theorems.  First the helper lemmas about the orchestrator chain, then
one theorem (plus witness or counterexample) per claim. -/

/-- The literal `if`/`elif` chain is the first-match scan over the ordered
candidate list. -/
theorem autofix_eq_runChain (net : Net) (o : Oracle) :
    auto_detect_and_fix_failures net o = runChain net o candidateList := rfl

/-- First-match scan characterised by the filtered down-candidate list: the
result is determined by the first candidate the detector reports down. -/
theorem runChain_spec (net : Net) (o : Oracle) (cands : List Candidate) :
    runChain net o cands =
      match cands.filter
          (fun c => detect_link_failure net.links c.pair.1 c.pair.2) with
      | [] => ⟨true, net, [], []⟩
      | c :: _ => finishAutofix (runPlan (planFor c.elem) net) o [c.label] [c.elem] := by
  induction cands with
  | nil => rfl
  | cons c rest ih =>
    by_cases h : detect_link_failure net.links c.pair.1 c.pair.2 = true
    · simp [runChain, List.filter_cons, h]
    · simp only [runChain, List.filter_cons, h, if_neg, Bool.false_eq_true,
        ite_false, ih]

/-- The verification sweep passes exactly when all six probes succeed. -/
theorem verifyConn_iff (o : Oracle) :
    verifyConn o = true ↔
      (test_connectivity o "h1" "h3" = true ∧ test_connectivity o "h1" "h5" = true ∧
       test_connectivity o "h3" "h5" = true ∧ test_connectivity o "h5" "h7" = true ∧
       test_connectivity o "h7" "h1" = true ∧ test_connectivity o "h5" "h3" = true) := by
  simp [verifyConn, testPairs, Bool.and_eq_true, and_assoc]

/-- C1: for every link state in which two or more candidate links of the
fixed scan order are simultaneously down, `auto_detect_and_fix_failures`
invokes exactly one recovery plan — the plan of the first down candidate in
scan order — and the resulting state is that single plan's effect. -/
theorem autofix_first_match_wins (net : Net) (o : Oracle)
    (c₁ c₂ : Candidate) (rest : List Candidate)
    (h : downCandidates net = c₁ :: c₂ :: rest) :
    (auto_detect_and_fix_failures net o).plansInvoked = [c₁.elem] ∧
    (auto_detect_and_fix_failures net o).net = runPlan (planFor c₁.elem) net := by
  rw [autofix_eq_runChain, runChain_spec]
  unfold downCandidates at h
  rw [h]
  exact ⟨rfl, rfl⟩

/-- Witness for C1: with both `ar1↔es2` and `ar2↔es1` down, only the AR1
plan (the plan of the first down candidate) is invoked. -/
theorem autofix_first_match_wins_witness :
    downCandidates twoDownNet =
      [⟨("ar1", "es2"), .AR1, "AR1 (ar1↔es2 failed)"⟩,
       ⟨("ar2", "es1"), .AR2, "AR2 (ar2↔es1 failed)"⟩] ∧
    (auto_detect_and_fix_failures twoDownNet pingOkOracle).plansInvoked =
      [Element.AR1] :=
  ⟨by decide,
   (autofix_first_match_wins twoDownNet pingOkOracle
      ⟨("ar1", "es2"), .AR1, "AR1 (ar1↔es2 failed)"⟩
      ⟨("ar2", "es1"), .AR2, "AR2 (ar2↔es1 failed)"⟩ [] (by decide)).1⟩

/-- C2: whenever the scan detects a failed candidate link (so a recovery
plan is applied), the call returns `true` exactly when all six probes of
the fixed host-pair set succeed. -/
theorem autofix_verifies_six_pairs (net : Net) (o : Oracle)
    (h : downCandidates net ≠ []) :
    (auto_detect_and_fix_failures net o).ok = true ↔
      (test_connectivity o "h1" "h3" = true ∧ test_connectivity o "h1" "h5" = true ∧
       test_connectivity o "h3" "h5" = true ∧ test_connectivity o "h5" "h7" = true ∧
       test_connectivity o "h7" "h1" = true ∧ test_connectivity o "h5" "h3" = true) := by
  rw [autofix_eq_runChain, runChain_spec]
  unfold downCandidates at h
  rcases hf : candidateList.filter
      (fun c => detect_link_failure net.links c.pair.1 c.pair.2) with _ | ⟨c, rest⟩
  · exact absurd hf h
  · rw [hf]
    exact verifyConn_iff o

/-- Witness for C2: in the two-failure scenario with an all-success ping
oracle the hypothesis holds and the equivalence is inhabited. -/
theorem autofix_verifies_six_pairs_witness :
    downCandidates twoDownNet ≠ [] ∧
    ((auto_detect_and_fix_failures twoDownNet pingOkOracle).ok = true ↔
      (test_connectivity pingOkOracle "h1" "h3" = true ∧
       test_connectivity pingOkOracle "h1" "h5" = true ∧
       test_connectivity pingOkOracle "h3" "h5" = true ∧
       test_connectivity pingOkOracle "h5" "h7" = true ∧
       test_connectivity pingOkOracle "h7" "h1" = true ∧
       test_connectivity pingOkOracle "h5" "h3" = true)) :=
  ⟨by decide, autofix_verifies_six_pairs twoDownNet pingOkOracle (by decide)⟩

/-- C3: when none of the 12 candidate links is detected as down,
`auto_detect_and_fix_failures` returns `true` with the network state — every
routing table and every link — untouched and no plan invoked. -/
theorem autofix_healthy_noop (net : Net) (o : Oracle)
    (h : downCandidates net = []) :
    auto_detect_and_fix_failures net o = ⟨true, net, [], []⟩ := by
  rw [autofix_eq_runChain, runChain_spec]
  unfold downCandidates at h
  rw [h]

/-- Witness for C3: the freshly configured network has no down candidate
link and the call is a successful no-op. -/
theorem autofix_healthy_noop_witness :
    downCandidates initialNet = [] ∧
    auto_detect_and_fix_failures initialNet pingDeadOracle =
      ⟨true, initialNet, [], []⟩ :=
  ⟨by decide, autofix_healthy_noop initialNet pingDeadOracle (by decide)⟩

/-- First-match scanning agrees with any-match reading on link lists whose
endpoint pairs are pairwise distinct as unordered pairs: the scan reports a
failure for `(a, b)` exactly when some link between `a` and `b` has a down
endpoint. -/
theorem detect_first_match_eq_any (a b : Name) (hab : a ≠ b) :
    ∀ links : List Link, (∀ l ∈ links, l.node1 ≠ l.node2) →
      links.Pairwise (fun l l' =>
        ¬ ((l.node1 = l'.node1 ∧ l.node2 = l'.node2) ∨
           (l.node1 = l'.node2 ∧ l.node2 = l'.node1))) →
      (detect_link_failure links a b = true ↔
        ∃ l ∈ links,
          ((l.node1 = a ∧ l.node2 = b) ∨ (l.node1 = b ∧ l.node2 = a)) ∧
          (l.up1 = false ∨ l.up2 = false)) := by
  intro links
  induction links with
  | nil => intro _ _; simp [detect_link_failure]
  | cons l rest ih =>
    intro hdist hpw
    rcases hpw with _ | ⟨hhead, hpw'⟩
    have hd : l.node1 ≠ l.node2 := hdist l (List.mem_cons_self l rest)
    rw [detect_link_failure]
    by_cases hm :
        ((a == l.node1 || a == l.node2) && (b == l.node1 || b == l.node2)) = true
    · have hbet : (l.node1 = a ∧ l.node2 = b) ∨ (l.node1 = b ∧ l.node2 = a) := by
        simp only [Bool.and_eq_true, Bool.or_eq_true, beq_iff_eq] at hm
        rcases hm with ⟨ha | ha, hb | hb⟩
        · exact absurd (ha.trans hb.symm) hab
        · exact Or.inl ⟨ha.symm, hb.symm⟩
        · exact Or.inr ⟨hb.symm, ha.symm⟩
        · exact absurd (ha.trans hb.symm) hab
      have hnorest : ∀ l' ∈ rest,
          ¬ (((l'.node1 = a ∧ l'.node2 = b) ∨ (l'.node1 = b ∧ l'.node2 = a)) ∧
             (l'.up1 = false ∨ l'.up2 = false)) := by
        rintro l' hl' ⟨hbet', _⟩
        apply hhead l' hl'
        rcases hbet with ⟨h1, h2⟩ | ⟨h1, h2⟩ <;>
          rcases hbet' with ⟨h3, h4⟩ | ⟨h3, h4⟩
        · exact Or.inl ⟨h1.trans h3.symm, h2.trans h4.symm⟩
        · exact Or.inr ⟨h1.trans h4.symm, h2.trans h3.symm⟩
        · exact Or.inr ⟨h1.trans h4.symm, h2.trans h3.symm⟩
        · exact Or.inl ⟨h1.trans h3.symm, h2.trans h4.symm⟩
      rw [if_pos hm]
      constructor
      · intro hdown
        refine ⟨l, List.mem_cons_self l rest, hbet, ?_⟩
        cases h1 : l.up1 <;> cases h2 : l.up2 <;> simp_all
      · rintro ⟨l', hl', hbet', hdown'⟩
        rcases List.mem_cons.mp hl' with rfl | hmem
        · cases h1 : l'.up1 <;> cases h2 : l'.up2 <;> simp_all
        · exact absurd ⟨hbet', hdown'⟩ (hnorest l' hmem)
    · have hnl : ¬ ((l.node1 = a ∧ l.node2 = b) ∨ (l.node1 = b ∧ l.node2 = a)) := by
        rintro (⟨h1, h2⟩ | ⟨h1, h2⟩) <;> (apply hm; simp [h1, h2])
      rw [if_neg hm]
      rw [ih (fun l' h => hdist l' (List.mem_cons_of_mem l h)) hpw']
      constructor
      · rintro ⟨l', hl', hp⟩
        exact ⟨l', List.mem_cons_of_mem l hl', hp⟩
      · rintro ⟨l', hl', hbet', hdown'⟩
        rcases List.mem_cons.mp hl' with rfl | hmem
        · exact absurd hbet' hnl
        · exact ⟨l', hmem, hbet', hdown'⟩

/-- C4 counterexample: the claim quantifies over every pair of node names,
but on the equal-name pair `(ar1, ar1)` — between which no link exists —
`detect_link_failure` returns `true` once the `cr1↔ar1` link is down,
because the membership test of the scan accepts any link incident to
`ar1`. -/
theorem detect_link_failure_claim_counterexample :
    linkBetween "ar1" "ar1" = false ∧
    ar1Cr1DownLinks.map linkPair = topoLinkPairs ∧
    detect_link_failure ar1Cr1DownLinks "ar1" "ar1" = true := by decide

/-- C4 amended: for every pair of distinct node names and every up/down
state of the topology's links, `detect_link_failure` returns `true` exactly
when a link between the two names exists with an endpoint interface down —
so `false` when such a link exists with both endpoints up, and `false`
(never an exception: the function is total) when no link between the two
names exists. -/
theorem detect_link_failure_spec (links : List Link) (a b : Name)
    (hmap : links.map linkPair = topoLinkPairs) (hab : a ≠ b) :
    detect_link_failure links a b = true ↔
      ∃ l ∈ links,
        ((l.node1 = a ∧ l.node2 = b) ∨ (l.node1 = b ∧ l.node2 = a)) ∧
        (l.up1 = false ∨ l.up2 = false) := by
  apply detect_first_match_eq_any a b hab
  · intro l hl
    have hmem : linkPair l ∈ topoLinkPairs := by
      rw [← hmap]; exact List.mem_map_of_mem linkPair hl
    have hall : ∀ p ∈ topoLinkPairs, p.1 ≠ p.2 := by decide
    exact hall _ hmem
  · have hpw : topoLinkPairs.Pairwise (fun p q =>
        ¬ ((p.1 = q.1 ∧ p.2 = q.2) ∨ (p.1 = q.2 ∧ p.2 = q.1))) := by decide
    rw [← hmap, List.pairwise_map] at hpw
    exact hpw

/-- Witness for the amended C4: on the distinct pair `(ar1, cr1)` with the
`cr1↔ar1` link down the equivalence is inhabited. -/
theorem detect_link_failure_spec_witness :
    ar1Cr1DownLinks.map linkPair = topoLinkPairs ∧ ("ar1" : Name) ≠ "cr1" ∧
    (detect_link_failure ar1Cr1DownLinks "ar1" "cr1" = true ↔
      ∃ l ∈ ar1Cr1DownLinks,
        ((l.node1 = "ar1" ∧ l.node2 = "cr1") ∨
         (l.node1 = "cr1" ∧ l.node2 = "ar1")) ∧
        (l.up1 = false ∨ l.up2 = false)) :=
  ⟨by decide, by decide,
   detect_link_failure_spec ar1Cr1DownLinks "ar1" "cr1" (by decide) (by decide)⟩

/-- Removing a route never increases the entry count of any destination. -/
theorem countDest_routeDel_le (d d' : Name) :
    ∀ t : List RouteEntry, countDest (routeDel t d) d' ≤ countDest t d' := by
  intro t
  induction t with
  | nil => simp [routeDel]
  | cons e rest ih =>
    rw [routeDel]
    by_cases h : (e.dest == d) = true
    · rw [if_pos h]
      simp only [countDest, List.countP_cons]
      omega
    · rw [if_neg h]
      simp only [countDest, List.countP_cons] at ih ⊢
      omega

/-- Removing a metric-specific route never increases any destination
count. -/
theorem countDest_routeDelM_le (d d' : Name) (m : Nat) :
    ∀ t : List RouteEntry, countDest (routeDelM t d m) d' ≤ countDest t d' := by
  intro t
  induction t with
  | nil => simp [routeDelM]
  | cons e rest ih =>
    rw [routeDelM]
    by_cases h : (e.dest == d && e.metric == m) = true
    · rw [if_pos h]
      simp only [countDest, List.countP_cons]
      omega
    · rw [if_neg h]
      simp only [countDest, List.countP_cons] at ih ⊢
      omega

/-- On a table with at most one entry for `d`, deleting `d` leaves no entry
for `d`. -/
theorem countDest_routeDel_self (d : Name) :
    ∀ t : List RouteEntry, countDest t d ≤ 1 →
      countDest (routeDel t d) d = 0 := by
  intro t
  induction t with
  | nil => intro _; simp [routeDel, countDest]
  | cons e rest ih =>
    intro h1
    rw [routeDel]
    by_cases h : (e.dest == d) = true
    · rw [if_pos h]
      simp only [countDest, List.countP_cons, h, if_pos] at h1 ⊢
      omega
    · rw [if_neg h]
      simp only [countDest, List.countP_cons, h, if_neg, Bool.false_eq_true] at h1 ⊢
      simp only [countDest] at ih
      exact ih (by omega)

/-- Adding a route for `d` leaves the count of any other destination
unchanged. -/
theorem countDest_routeAdd_other (t : List RouteEntry) (d d' : Name)
    (nh : NextHop) (m : Nat) (hdd : d ≠ d') :
    countDest (routeAdd t d nh m) d' = countDest t d' := by
  rw [routeAdd]
  by_cases h : (t.any fun e => e.dest == d && e.metric == m) = true
  · rw [if_pos h]
  · rw [if_neg h]
    simp [countDest, List.countP_append, hdd]

/-- Adding a route for `d` to a table with no entry for `d` yields exactly
one entry for `d`. -/
theorem countDest_routeAdd_self (t : List RouteEntry) (d : Name)
    (nh : NextHop) (m : Nat) (h0 : countDest t d = 0) :
    countDest (routeAdd t d nh m) d = 1 := by
  have hne : ∀ e ∈ t, e.dest ≠ d := by
    intro e he
    simpa using List.countP_eq_zero.mp h0 e he
  have hany : (t.any fun e => e.dest == d && e.metric == m) = false := by
    rw [List.any_eq_false]
    intro e he
    simp [hne e he]
  have hcond : ¬ ((t.any fun e => e.dest == d && e.metric == m) = true) := by
    rw [hany]
    simp
  rw [routeAdd, if_neg hcond]
  simp [countDest, List.countP_append, h0]
  exact hne

/-- The route-replacement table transform of `update_router_route`
preserves the at-most-one-route-per-destination invariant. -/
theorem setRouterTable_atMostOne (t : List RouteEntry) (d : Name)
    (cfg : RouteConfig) (h : atMostOne t) :
    atMostOne (setRouterTable t d cfg) := by
  intro d'
  unfold setRouterTable
  by_cases hdd : d = d'
  · subst hdd
    have h0 : countDest (routeDelM (routeDelM (routeDel t d) d 1) d 2) d = 0 := by
      have := countDest_routeDel_self d t (h d)
      have h2 := countDest_routeDelM_le d d 1 (routeDel t d)
      have h3 := countDest_routeDelM_le d d 2 (routeDelM (routeDel t d) d 1)
      omega
    rw [countDest_routeAdd_self _ _ _ _ h0]
  · rw [countDest_routeAdd_other _ _ _ _ _ hdd]
    have h1 := countDest_routeDelM_le d d' 2 (routeDelM (routeDel t d) d 1)
    have h2 := countDest_routeDelM_le d d' 1 (routeDel t d)
    have h3 := countDest_routeDel_le d d' t
    have := h d'
    omega

/-- The table transform of `update_host_route` preserves the invariant. -/
theorem setHostTable_atMostOne (t : List RouteEntry) (d gw : Name)
    (h : atMostOne t) : atMostOne (setHostTable t d gw) := by
  intro d'
  unfold setHostTable
  by_cases hdd : d = d'
  · subst hdd
    rw [countDest_routeAdd_self _ _ _ _ (countDest_routeDel_self d t (h d))]
  · rw [countDest_routeAdd_other _ _ _ _ _ hdd]
    have h3 := countDest_routeDel_le d d' t
    have := h d'
    omega

/-- One `setRoute` call preserves the network-wide invariant. -/
theorem applyStep_atMostOne (net : Net) (s : Step) (h : atMostOneNet net) :
    atMostOneNet (applyStep net s) := by
  cases s with
  | router r d cfg =>
    show atMostOneNet (update_router_route net r d cfg).2
    unfold update_router_route
    by_cases hr : nodeExists r = true
    · rw [if_pos hr]
      intro n d'
      show countDest (setTable net.tables r (setRouterTable (net.tables r) d cfg) n) d' ≤ 1
      unfold setTable
      by_cases hn : (n == r) = true
      · rw [if_pos hn]
        exact setRouterTable_atMostOne (net.tables r) d cfg (fun x => h r x) d'
      · rw [if_neg hn]
        exact h n d'
    · rw [if_neg hr]
      exact h
  | host hn d gw =>
    show atMostOneNet (update_host_route net hn d gw).2
    unfold update_host_route
    by_cases hr : nodeExists hn = true
    · rw [if_pos hr]
      intro n d'
      show countDest (setTable net.tables hn (setHostTable (net.tables hn) d gw) n) d' ≤ 1
      unfold setTable
      by_cases hnn : (n == hn) = true
      · rw [if_pos hnn]
        exact setHostTable_atMostOne (net.tables hn) d gw (fun x => h hn x) d'
      · rw [if_neg hnn]
        exact h n d'
    · rw [if_neg hr]
      exact h

/-- C5 counterexample: the claim asserts at most one active route per node
and destination prefix after any successful recovery plan; but the AR1 plan,
run on the healthy network produced by `setup_basic_routing`, leaves `cr2`
with two active routes for `10.1.1.0/24` — the metric-0 route of the basic
setup and the metric-1 route the plan adds without a prior delete. -/
theorem recovery_plan_duplicate_route :
    countDest ((runPlan fix_ar1_complete_failure initialNet).tables "cr2")
        "10.1.1.0/24" = 2 ∧
    ((runPlan fix_ar1_complete_failure initialNet).tables "cr2").filter
        (fun e => e.dest == "10.1.1.0/24") =
      [⟨"10.1.1.0/24", .via "172.16.6.2", 0⟩,
       ⟨"10.1.1.0/24", .via "172.16.6.2", 1⟩] := by
  constructor
  · decide
  · decide

/-- C5 amended: after any sequence of `setRoute` calls
(`update_router_route` / `update_host_route`) starting from a network whose
tables have at most one active route per destination prefix, every node
still has at most one active route per destination prefix.  (The recovery
plans themselves do not preserve this invariant — see the
counterexample.) -/
theorem setRoute_sequence_at_most_one (steps : List Step) :
    ∀ net : Net, atMostOneNet net → atMostOneNet (applySteps steps net) := by
  induction steps with
  | nil => intro net h; exact h
  | cons s rest ih =>
    intro net h
    exact ih (applyStep net s) (applyStep_atMostOne net s h)

/-- Witness for the amended C5: from the empty-table network, a concrete
pair of `setRoute` calls preserves the invariant. -/
theorem setRoute_sequence_at_most_one_witness :
    atMostOneNet freshNet ∧
    atMostOneNet (applySteps
      [.router "ar1" "10.2.0.0/16" (.via "10.1.1.253" 1),
       .host "h1" "default" "10.1.1.253"] freshNet) :=
  have h0 : atMostOneNet freshNet := by
    intro n d
    simp [freshNet, countDest]
  ⟨h0, setRoute_sequence_at_most_one
    [.router "ar1" "10.2.0.0/16" (.via "10.1.1.253" 1),
     .host "h1" "default" "10.1.1.253"] freshNet h0⟩

/-- Adding a route for a destination absent from the table appends it. -/
theorem routeAdd_of_none (t : List RouteEntry) (d : Name) (nh : NextHop)
    (m : Nat) (h0 : countDest t d = 0) :
    routeAdd t d nh m = t ++ [⟨d, nh, m⟩] := by
  have hne : ∀ e ∈ t, e.dest ≠ d := by
    intro e he
    simpa using List.countP_eq_zero.mp h0 e he
  have hany : (t.any fun e => e.dest == d && e.metric == m) = false := by
    rw [List.any_eq_false]
    intro e he
    simp [hne e he]
  have hcond : ¬ ((t.any fun e => e.dest == d && e.metric == m) = true) := by
    rw [hany]
    simp
  rw [routeAdd, if_neg hcond]

/-- Entry count of a destination over a cons cell. -/
theorem countDest_cons (e : RouteEntry) (rest : List RouteEntry) (d : Name) :
    countDest (e :: rest) d =
      countDest rest d + (if (e.dest == d) = true then 1 else 0) := by
  simp [countDest, List.countP_cons]

/-- Metric-specific deletion of a destination absent from the table is a
no-op. -/
theorem routeDelM_of_none (d : Name) (m : Nat) :
    ∀ t : List RouteEntry, countDest t d = 0 → routeDelM t d m = t := by
  intro t
  induction t with
  | nil => intro _; rfl
  | cons e rest ih =>
    intro h0
    rw [countDest_cons] at h0
    have he : (e.dest == d) = false := by
      by_cases h : (e.dest == d) = true
      · rw [if_pos h] at h0; omega
      · simpa using h
    simp only [he, Bool.false_eq_true, if_false, Nat.add_zero] at h0
    rw [routeDelM]
    rw [if_neg (by simp [he])]
    rw [ih h0]

/-- Deleting a destination from a table whose only entry for it is the
appended last element removes exactly that element. -/
theorem routeDel_append_of_none (d : Name) (nh : NextHop) (m : Nat) :
    ∀ t : List RouteEntry, countDest t d = 0 →
      routeDel (t ++ [⟨d, nh, m⟩]) d = t := by
  intro t
  induction t with
  | nil => simp [routeDel]
  | cons e rest ih =>
    intro h0
    rw [countDest_cons] at h0
    have he : (e.dest == d) = false := by
      by_cases h : (e.dest == d) = true
      · rw [if_pos h] at h0; omega
      · simpa using h
    simp only [he, Bool.false_eq_true, if_false, Nat.add_zero] at h0
    rw [List.cons_append, routeDel, if_neg (by simp [he]), ih h0]

/-- After the three deletes of `update_router_route` no entry for the
destination remains. -/
theorem countDest_cleared (t : List RouteEntry) (d : Name)
    (h : countDest t d ≤ 1) :
    countDest (routeDelM (routeDelM (routeDel t d) d 1) d 2) d = 0 := by
  have h1 := countDest_routeDel_self d t h
  have h2 := countDest_routeDelM_le d d 1 (routeDel t d)
  have h3 := countDest_routeDelM_le d d 2 (routeDelM (routeDel t d) d 1)
  omega

/-- Structure of the replaced table: the surviving other-destination
entries followed by the fresh entry. -/
theorem setRouterTable_structure (t : List RouteEntry) (d : Name)
    (cfg : RouteConfig) (h : countDest t d ≤ 1) :
    setRouterTable t d cfg =
      routeDelM (routeDelM (routeDel t d) d 1) d 2 ++
        [⟨d, cfg.nh, cfg.metricOf⟩] := by
  unfold setRouterTable
  exact routeAdd_of_none _ _ _ _ (countDest_cleared t d h)

/-- Replacing the same route twice equals replacing it once (table
level). -/
theorem setRouterTable_idem (t : List RouteEntry) (d : Name)
    (cfg : RouteConfig) (h : countDest t d ≤ 1) :
    setRouterTable (setRouterTable t d cfg) d cfg = setRouterTable t d cfg := by
  have h0 := countDest_cleared t d h
  rw [setRouterTable_structure t d cfg h]
  unfold setRouterTable
  rw [routeDel_append_of_none _ _ _ _ h0, routeDelM_of_none _ _ _ h0,
    routeDelM_of_none _ _ _ h0, routeAdd_of_none _ _ _ _ h0]

/-- The replaced table holds exactly one entry for the destination: the
configured one, with no alternate-metric residue. -/
theorem setRouterTable_filter (t : List RouteEntry) (d : Name)
    (cfg : RouteConfig) (h : countDest t d ≤ 1) :
    (setRouterTable t d cfg).filter (fun e => e.dest == d) =
      [⟨d, cfg.nh, cfg.metricOf⟩] := by
  have h0 := countDest_cleared t d h
  rw [setRouterTable_structure t d cfg h, List.filter_append]
  have hnil : (routeDelM (routeDelM (routeDel t d) d 1) d 2).filter
      (fun e => e.dest == d) = [] := by
    rw [List.filter_eq_nil_iff]
    intro e he
    have := List.countP_eq_zero.mp h0 e he
    simpa using this
  rw [hnil]
  simp

/-- C6: `update_router_route` is idempotent — on an existing node whose
table holds at most one route per destination prefix, calling it twice with
identical arguments leaves the routing state exactly as one call does, and
the table then holds exactly one entry for the destination (the configured
next hop and metric, no alternate-metric residue). -/
theorem update_router_route_idempotent (net : Net) (r d : Name)
    (cfg : RouteConfig) (hr : nodeExists r = true)
    (h1 : atMostOne (net.tables r)) :
    (update_router_route (update_router_route net r d cfg).2 r d cfg).2 =
      (update_router_route net r d cfg).2 ∧
    ((update_router_route net r d cfg).2.tables r).filter
        (fun e => e.dest == d) = [⟨d, cfg.nh, cfg.metricOf⟩] := by
  obtain ⟨lnk, tbl⟩ := net
  simp only [update_router_route, hr, if_true, ite_true]
  constructor
  · have htr : setTable tbl r (setRouterTable (tbl r) d cfg) r =
        setRouterTable (tbl r) d cfg := by
      simp [setTable]
    rw [htr, setRouterTable_idem (tbl r) d cfg (h1 d)]
    simp only [Net.mk.injEq, and_true, true_and]
    funext n
    simp only [setTable]
    by_cases hn : (n == r) = true
    · rw [if_pos hn, if_pos hn]
    · rw [if_neg hn, if_neg hn]
  · have htr : setTable tbl r (setRouterTable (tbl r) d cfg) r =
        setRouterTable (tbl r) d cfg := by
      simp [setTable]
    rw [htr]
    exact setRouterTable_filter (tbl r) d cfg (h1 d)

/-- Witness for C6 at a concrete call: node `ar1`, destination
`10.2.0.0/16`, gateway next hop with metric 1, from the empty-table
network. -/
theorem update_router_route_idempotent_witness :
    nodeExists "ar1" = true ∧ atMostOne (freshNet.tables "ar1") ∧
    ((update_router_route
        (update_router_route freshNet "ar1" "10.2.0.0/16"
          (.via "10.1.1.253" 1)).2
        "ar1" "10.2.0.0/16" (.via "10.1.1.253" 1)).2 =
      (update_router_route freshNet "ar1" "10.2.0.0/16"
        (.via "10.1.1.253" 1)).2 ∧
     ((update_router_route freshNet "ar1" "10.2.0.0/16"
        (.via "10.1.1.253" 1)).2.tables "ar1").filter
        (fun e => e.dest == "10.2.0.0/16") =
      [⟨"10.2.0.0/16", .via "10.1.1.253", 1⟩]) :=
  have h1 : atMostOne (freshNet.tables "ar1") := by
    intro d
    simp [freshNet, countDest]
  ⟨by decide, h1,
   update_router_route_idempotent freshNet "ar1" "10.2.0.0/16"
     (.via "10.1.1.253" 1) (by decide) h1⟩

/-- C7: a `setRoute` call naming a node outside the topology surfaces the
failure as a `False` return (the spec's `ConfigurationError`), mutates no
routing table and no link, and a plan running a list of `setRoute` steps
continues with the remaining steps. -/
theorem setRoute_missing_node (net : Net) (r d gw : Name) (cfg : RouteConfig)
    (rest : List Step) (hr : nodeExists r = false) :
    update_router_route net r d cfg = (false, net) ∧
    update_host_route net r d gw = (false, net) ∧
    applySteps (Step.router r d cfg :: rest) net = applySteps rest net := by
  have hr' : ¬ (nodeExists r = true) := by simp [hr]
  refine ⟨?_, ?_, ?_⟩
  · rw [update_router_route, if_neg hr']
  · rw [update_host_route, if_neg hr']
  · show List.foldl applyStep net (Step.router r d cfg :: rest) =
      List.foldl applyStep net rest
    rw [List.foldl_cons]
    have : applyStep net (Step.router r d cfg) = net := by
      show (update_router_route net r d cfg).2 = net
      rw [update_router_route, if_neg hr']
    rw [this]

/-- Witness for C7: host name `h9` does not exist; the call fails softly on
the healthy network and a following step still executes. -/
theorem setRoute_missing_node_witness :
    nodeExists "h9" = false ∧
    (update_router_route initialNet "h9" "10.0.0.0/8" (.via "10.1.1.254" 1) =
      (false, initialNet) ∧
     update_host_route initialNet "h9" "10.0.0.0/8" "10.1.1.254" =
      (false, initialNet) ∧
     applySteps
        [Step.router "h9" "10.0.0.0/8" (.via "10.1.1.254" 1),
         Step.host "h1" "default" "10.1.1.253"] initialNet =
      applySteps [Step.host "h1" "default" "10.1.1.253"] initialNet) :=
  ⟨by decide,
   setRoute_missing_node initialNet "h9" "10.0.0.0/8" "10.1.1.254"
     (.via "10.1.1.254" 1) [Step.host "h1" "default" "10.1.1.253"] (by decide)⟩

/-- C8: the connectivity probe issues exactly one ICMP echo with a
2-second timeout (`ping -c 1 -W 2 <destination IP>`) and returns `true`
precisely when both hosts exist and the ping output contains the success
marker `bytes from`; every other case — unknown source or destination,
timeout, unreachable or malformed output — is an ordinary `false` (the
model is total, so no exception can escape). -/
theorem test_connectivity_spec (o : Oracle) (src_name dst_name : Name) :
    test_connectivity o src_name dst_name = true ↔
      (nodeExists src_name = true ∧ nodeExists dst_name = true ∧
       hasSubstr (o src_name ("ping -c 1 -W 2 " ++ ipStr dst_name))
         "bytes from" = true) := by
  unfold test_connectivity
  by_cases h : (nodeExists src_name && nodeExists dst_name) = true
  · rw [if_pos h]
    rw [Bool.and_eq_true] at h
    simp [h.1, h.2]
  · rw [if_neg h]
    rw [Bool.and_eq_true] at h
    simp only [Bool.false_eq_true, false_iff]
    intro hc
    exact h ⟨hc.1, hc.2.1⟩

/-- C10: the boolean result of the route-mutation primitives depends only
on node existence — `true` exactly when the named node exists, for every
network state (the underlying command outcomes are never consulted). -/
theorem setRoute_result_eq_nodeExists (net : Net) (r d gw : Name)
    (cfg : RouteConfig) :
    (update_router_route net r d cfg).1 = nodeExists r ∧
    (update_host_route net r d gw).1 = nodeExists r := by
  constructor
  · rw [update_router_route]
    by_cases h : nodeExists r = true
    · rw [if_pos h, h]
    · rw [if_neg h]
      simp only [Bool.not_eq_true] at h
      rw [h]
  · rw [update_host_route]
    by_cases h : nodeExists r = true
    · rw [if_pos h, h]
    · rw [if_neg h]
      simp only [Bool.not_eq_true] at h
      rw [h]

/-- C9: every recovery plan starts with a block of link-down commands —
the commands strictly before the first route mutation — that covers all of
the failed element's topology links: all three links of an aggregation
router, both links of a core router. -/
theorem plans_mark_element_links_down_first :
    (coversLinks
        (linkDownPairs (fix_ar1_complete_failure.takeWhile isLinkDownAct))
        (elementLinks "ar1") = true ∧ (elementLinks "ar1").length = 3) ∧
    (coversLinks
        (linkDownPairs (fix_ar2_complete_failure.takeWhile isLinkDownAct))
        (elementLinks "ar2") = true ∧ (elementLinks "ar2").length = 3) ∧
    (coversLinks
        (linkDownPairs (fix_ar3_complete_failure.takeWhile isLinkDownAct))
        (elementLinks "ar3") = true ∧ (elementLinks "ar3").length = 3) ∧
    (coversLinks
        (linkDownPairs (fix_ar4_complete_failure.takeWhile isLinkDownAct))
        (elementLinks "ar4") = true ∧ (elementLinks "ar4").length = 3) ∧
    (coversLinks
        (linkDownPairs (fix_cr1_complete_failure.takeWhile isLinkDownAct))
        (elementLinks "cr1") = true ∧ (elementLinks "cr1").length = 2) ∧
    (coversLinks
        (linkDownPairs (fix_cr2_complete_failure.takeWhile isLinkDownAct))
        (elementLinks "cr2") = true ∧ (elementLinks "cr2").length = 2) := by
  decide

end FatTree
